import Mathlib

/-!
Shallow embedding of the command-dispatch core of the meets-match bot
(src/lib.rs, src/rbac_service/mod.rs, src/user_service/mod.rs,
src/config_service/mod.rs).

Conventions of the embedding:
* Rust `Vec<T>` becomes `List T`; `Vec::contains` becomes decidable list
  membership.
* Timestamps (`DateTime<Utc>`) become `Int` (seconds); `Duration::minutes m`
  becomes `m * 60`; `signed_duration_since` becomes integer subtraction.
* Database reads are passed in as the fetched value (`Option User`); database
  writes are returned as values.  Store-level failures (D1 errors, user row
  vanishing between read and write) are outside the modelled state space:
  every claim below concerns the logic that runs when the store calls
  themselves succeed.
* Each `Response::from_json(...)` return site of a handler is one constructor
  of a response inductive, so distinct outbound messages stay distinguishable.
* Rust `str::len` is UTF-8 byte length, embedded as `utf8Len`.
* String helpers (`trim`, `starts_with`, `split_whitespace().next()`,
  `to_lowercase`) are embedded structurally over `String.data` so that the
  kernel can evaluate them on concrete inputs (Rust lowercasing is full
  Unicode; the commands compared against are ASCII, where the embedded
  ASCII lowercasing agrees with it).
-/

/-- Roles, from src/rbac_service/mod.rs (`enum Role`). -/
inductive Role where
  | User
  | Admin
deriving DecidableEq, Repr

/-- User lifecycle states, from src/user_service/mod.rs (`enum UserState`). -/
inductive UserState where
  | New
  | Onboarding
  | Active
  | Blocked
deriving DecidableEq, Repr

/-- Sender identity as delivered by the gateway, from src/lib.rs
(`struct TelegramUser`). -/
structure TelegramUser where
  id : Int
  username : Option String
deriving Repr

/-- The durable user row, from src/user_service/mod.rs (`struct User`).
Timestamps are `Int` seconds; `latitude`/`longitude` are `f64` in the source
and appear here only as present/absent (`Option Float`). -/
structure User where
  id : String
  telegram_id : Int
  telegram_username : Option String
  name : Option String
  age : Option Nat
  gender : Option String
  bio : Option String
  location_text : Option String
  latitude : Option Float
  longitude : Option Float
  media_keys : List String
  created_at : Int
  updated_at : Int
  last_interaction_at : Int
  state : UserState
  roles : List Role

/-- From src/user_service/mod.rs: `User::is_profile_complete`. -/
def is_profile_complete (u : User) : Bool :=
  u.name.isSome && decide (u.state = UserState.Active)

/-- Environment configuration, from src/config_service/mod.rs
(`struct EnvironmentConfig`); `session_timeout_minutes` is a `u32`. -/
structure EnvironmentConfig where
  log_level : String
  environment : String
  session_timeout_minutes : Nat
deriving Repr

/-- From src/rbac_service/mod.rs: the fixed allow-list granted to the
`User` role inside `check_permission`. -/
def user_allowed_commands : List String :=
  ["/start", "/find_match", "/profile", "/help"]

/-- From src/rbac_service/mod.rs: `RBACService::check_permission`.
Admin short-circuits to allow; else the User role is checked against the
fixed allow-list; else deny. -/
def check_permission (user_roles : List Role) (command : String) : Bool :=
  if decide (Role.Admin ∈ user_roles) then true
  else if decide (Role.User ∈ user_roles) then
    decide (command ∈ user_allowed_commands)
  else false

/-- From src/user_service/mod.rs: `MAX_USER_MEDIA_ITEMS`. -/
def MAX_USER_MEDIA_ITEMS : Nat := 5

/-- Error raised by `add_media_key_to_user` when the media list is full
(`worker::Error::RustError("Media limit (5) reached.")`). -/
inductive MediaError where
  | limitReached
deriving DecidableEq, Repr

/-- From src/user_service/mod.rs: the list logic of
`UserService::add_media_key_to_user` on the fetched row's `media_keys`.
The limit check runs first and errors out; otherwise a missing key is pushed
at the end and a present key is left alone (warn only); the resulting list is
what the UPDATE persists. -/
def add_media_key_to_user (media_keys : List String) (k : String) :
    Except MediaError (List String) :=
  if MAX_USER_MEDIA_ITEMS ≤ media_keys.length then
    Except.error MediaError.limitReached
  else if decide (k ∈ media_keys) = false then
    Except.ok (media_keys ++ [k])
  else
    Except.ok media_keys

/-- From src/user_service/mod.rs: the list logic of
`UserService::remove_media_key_from_user` on the fetched row's `media_keys`:
`retain(|key| key != r2_object_key_to_remove)` keeps exactly the keys that
differ from the removed one, and the result is persisted unconditionally
(no error branch for an absent key). -/
def remove_media_key_from_user (media_keys : List String) (k : String) :
    List String :=
  media_keys.filter (fun key => decide (key ≠ k))

/-- Structural embedding of Rust `str::trim`: strip leading and trailing
whitespace characters. -/
def trimStr (s : String) : String :=
  ⟨((s.data.dropWhile Char.isWhitespace).reverse.dropWhile
      Char.isWhitespace).reverse⟩

/-- Structural embedding of Rust `str::starts_with`. -/
def startsWithStr (s p : String) : Bool :=
  decide (s.data.take p.data.length = p.data)

/-- Structural embedding of `text.split_whitespace().next().unwrap_or("")`
from `dispatch_command`: skip leading whitespace, take until whitespace. -/
def first_token (s : String) : String :=
  ⟨(s.data.dropWhile Char.isWhitespace).takeWhile (fun c => !c.isWhitespace)⟩

/-- ASCII lowercasing of one character (the commands matched against are all
ASCII, where Rust `to_lowercase` agrees with this). -/
def lowerChar (c : Char) : Char :=
  if 65 ≤ c.toNat ∧ c.toNat ≤ 90 then Char.ofNat (c.toNat + 32) else c

/-- Embedding of `.to_lowercase()` applied to the first token. -/
def lowerStr (s : String) : String :=
  ⟨s.data.map lowerChar⟩

/-- UTF-8 byte length, the embedding of Rust `str::len`. -/
def utf8Len (s : String) : Nat :=
  (s.data.map Char.utf8Size).sum

/-- One constructor per `Response::from_json` return site reachable from
`dispatch_command` in src/lib.rs. -/
inductive DispatchResponse where
  | cannotIdentify
  | pleaseStart
  | permissionDenied
  | profileResp
  | findMatchResp
  | helpResp (adminExtras : Bool)
  | statusResp
  | adminOnly
  | unknownCommand (cmd : String)
deriving DecidableEq, Repr

/-- From src/lib.rs: `dispatch_command`.  `lookup` is the result of the
(successful) `get_user_by_telegram_id` store call for `tgOpt`'s id.  The
returned pair is (outbound response, whether the session-timeout branch
fired).  The timeout branch only logs in the source; it mutates nothing and
returns nothing, which the embedding renders by computing the response
independently of the flag. -/
def dispatch_command (lookup : Option User) (cfg : EnvironmentConfig)
    (now : Int) (tgOpt : Option TelegramUser) (text : String) :
    DispatchResponse × Bool :=
  let command_str := lowerStr (first_token text)
  match tgOpt with
  | none => (DispatchResponse.cannotIdentify, false)
  | some _ =>
    match lookup with
    | none => (DispatchResponse.pleaseStart, false)
    | some user =>
      let staleLogged :=
        decide ((cfg.session_timeout_minutes : Int) * 60 <
            now - user.last_interaction_at) &&
          decide (user.state ≠ UserState.Onboarding)
      let resp :=
        if check_permission user.roles command_str = false then
          DispatchResponse.permissionDenied
        else if command_str = "/profile" then DispatchResponse.profileResp
        else if command_str = "/find_match" then DispatchResponse.findMatchResp
        else if command_str = "/help" then
          DispatchResponse.helpResp (decide (Role.Admin ∈ user.roles))
        else if command_str = "/status" then
          if decide (Role.Admin ∈ user.roles) then DispatchResponse.statusResp
          else DispatchResponse.adminOnly
        else DispatchResponse.unknownCommand command_str
      (resp, staleLogged)

/-- The spec's session-staleness predicate (spec §4.5): elapsed time since the
pre-update `lastInteractionAt` exceeds the configured threshold AND the user
is not currently Onboarding. -/
def session_stale_spec (cfg : EnvironmentConfig) (now last : Int)
    (st : UserState) : Bool :=
  decide ((cfg.session_timeout_minutes : Int) * 60 < now - last) &&
    decide (st ≠ UserState.Onboarding)

/-- From src/user_service/mod.rs: the row built by
`UserService::create_user_from_telegram_user` (the generated UUID is passed
in as `uid`, `Utc::now()` as `now`). -/
def create_user_from_telegram_user (uid : String) (tg : TelegramUser)
    (now : Int) : User :=
  { id := uid
    telegram_id := tg.id
    telegram_username := tg.username
    name := none
    age := none
    gender := none
    bio := none
    location_text := none
    latitude := none
    longitude := none
    media_keys := []
    created_at := now
    updated_at := now
    last_interaction_at := now
    state := UserState.Onboarding
    roles := [Role.User] }

/-- One constructor per `Response::from_json` return site reachable from
`handle_start_command` in src/lib.rs when the store calls succeed (the
`Err` branches of the fetch / create / activate store calls are outside the
modelled state space). -/
inductive StartResponse where
  | cannotIdentify
  | accessDenied
  | accountBlocked
  | welcomeBack (name : String)
  | askName
  | activatedMenu (name : String)
  | newUserPermissionError
  | newUserAskName
deriving DecidableEq, Repr

/-- From src/lib.rs: `handle_start_command`.  `lookup` is the (successful)
fetch result for `tgOpt`'s telegram id; `newUid`/`now` feed the creation
path.  The session-timeout block in this handler only logs and is modelled
by nothing: it has no effect on the returned response.  Order of the
existing-user checks follows the source: RBAC, then Blocked, then profile
completeness, then missing-name, then activation. -/
def handle_start_command (_cfg : EnvironmentConfig) (now : Int)
    (newUid : String) (tgOpt : Option TelegramUser) (lookup : Option User) :
    StartResponse :=
  match tgOpt with
  | none => StartResponse.cannotIdentify
  | some tu =>
    match lookup with
    | some du =>
      if check_permission du.roles "/start" = false then
        StartResponse.accessDenied
      else if du.state = UserState.Blocked then
        StartResponse.accountBlocked
      else if is_profile_complete du then
        StartResponse.welcomeBack (du.name.getD "there")
      else if du.name = none then
        StartResponse.askName
      else
        StartResponse.activatedMenu (du.name.getD "")
    | none =>
      let nu := create_user_from_telegram_user newUid tu now
      if check_permission nu.roles "/start" = false then
        StartResponse.newUserPermissionError
      else
        StartResponse.newUserAskName

/-- One constructor per `Response::from_json` return site reachable from
`handle_onboarding_message` in src/lib.rs when the store calls succeed. -/
inductive OnboardResponse where
  | cannotIdentify
  | pleaseStart
  | invalidName
  | profileComplete (name : String)
  | fallback
deriving DecidableEq, Repr

/-- From src/lib.rs: `handle_onboarding_message`.  `lookup` is the
(successful) fetch result.  Returns the outbound response together with the
row written by `update_user_state_and_name` when that call runs (`none`
when nothing is written).  The name check is the source's
`is_empty || len() > 50 || starts_with("/")` over the trimmed text, with
`len()` as UTF-8 byte length. -/
def handle_onboarding_message (lookup : Option User)
    (tgOpt : Option TelegramUser) (now : Int) (text : String) :
    OnboardResponse × Option User :=
  match tgOpt with
  | none => (OnboardResponse.cannotIdentify, none)
  | some _ =>
    match lookup with
    | none => (OnboardResponse.pleaseStart, none)
    | some cu =>
      if cu.state = UserState.Onboarding ∧ cu.name = none then
        let n := trimStr text
        if n = "" ∨ 50 < utf8Len n ∨ startsWithStr n "/" = true then
          (OnboardResponse.invalidName, none)
        else
          (OnboardResponse.profileComplete n,
            some { cu with
                    name := some n
                    state := UserState.Active
                    updated_at := now
                    last_interaction_at := now })
      else
        (OnboardResponse.fallback, none)

/-- The single outbound response of one text-message invocation of the worker
entry point (src/lib.rs `main`), tagged by which handler produced it. -/
inductive MainResponse where
  | start (r : StartResponse)
  | dispatched (r : DispatchResponse)
  | onboarded (r : OnboardResponse)
deriving DecidableEq, Repr

/-- From src/lib.rs: the text-message path of `main`.  Routing is by prefix
of the trimmed text: `/start`-prefixed text goes to the start handler,
other `/`-prefixed text to `dispatch_command`, the rest to the onboarding
handler; the chosen handler receives the trimmed text.  `refetch` is the
re-fetch `main` performs afterwards to resolve the internal user id; the
second component models the `record_user_interaction` call: `none` when the
id was not resolved (call skipped), `some b` when the call ran and returned
success `b` (`recordFails` makes it fail; the failure is only logged and the
already-computed response is returned unchanged). -/
def main_handle_text (cfg : EnvironmentConfig) (now : Int) (newUid : String)
    (tgOpt : Option TelegramUser) (lookup refetch : Option User)
    (text : String) (recordFails : Bool) : MainResponse × Option Bool :=
  let t := trimStr text
  let resp :=
    if startsWithStr t "/start" then
      MainResponse.start (handle_start_command cfg now newUid tgOpt lookup)
    else if startsWithStr t "/" then
      MainResponse.dispatched (dispatch_command lookup cfg now tgOpt t).1
    else
      MainResponse.onboarded (handle_onboarding_message lookup tgOpt now t).1
  let resolved := tgOpt.isSome && refetch.isSome
  (resp, if resolved then some (!recordFails) else none)

/-- A sample environment configuration (the defaults of
src/config_service/mod.rs). -/
def sampleCfg : EnvironmentConfig :=
  { log_level := "INFO", environment := "dev", session_timeout_minutes := 30 }

/-- A sample gateway sender used for concrete evaluations. -/
def sampleTg : TelegramUser := { id := 7, username := none }

/-- A concrete user row with the given state, roles, name and media keys;
all other fields fixed. -/
def mkUser (st : UserState) (roles : List Role) (nm : Option String)
    (keys : List String) : User :=
  { id := "u-1"
    telegram_id := 7
    telegram_username := none
    name := nm
    age := none
    gender := none
    bio := none
    location_text := none
    latitude := none
    longitude := none
    media_keys := keys
    created_at := 0
    updated_at := 0
    last_interaction_at := 0
    state := st
    roles := roles }

/-- A blocked user still carrying the default `User` role. -/
def blockedUser : User := mkUser UserState.Blocked [Role.User] (some "Bo") []


/-- Claim C1: `check_permission` allows a command exactly when `Admin` is
among the roles, or `User` is among the roles and the command is in the
fixed user allow-list; with neither role (in particular an empty role list)
it denies everything. -/
theorem check_permission_cases (R : List Role) (C : String) :
    check_permission R C = true ↔
      Role.Admin ∈ R ∨ (Role.User ∈ R ∧ C ∈ user_allowed_commands) := by
  unfold check_permission
  by_cases h1 : Role.Admin ∈ R
  · simp [h1]
  · by_cases h2 : Role.User ∈ R <;> simp [h1, h2]

/-- Claim C2, counterexample: a user in state `Blocked` still carrying the
default `User` role who sends "/help" is routed by `dispatch_command`
straight to the help handler — the dispatcher has no Blocked pre-check, so
the claimed fixed denial does not happen. -/
theorem blocked_user_help_counterexample :
    blockedUser.state = UserState.Blocked ∧
    (dispatch_command (some blockedUser) sampleCfg 0 (some sampleTg)
        "/help").1 = DispatchResponse.helpResp false := by decide

/-- Claim C2, amended: the Blocked pre-check exists only inside the /start
handler — there an existing Blocked user (whose roles pass the RBAC gate)
receives the fixed blocked denial — while `dispatch_command` never inspects
the Blocked state: its response is the same whether the user's state is
Blocked or Active. -/
theorem blocked_check_only_in_start_handler (u : User)
    (cfg : EnvironmentConfig) (now : Int) (newUid : String)
    (t : TelegramUser) (text : String)
    (hb : u.state = UserState.Blocked)
    (hp : check_permission u.roles "/start" = true) :
    handle_start_command cfg now newUid (some t) (some u) =
      StartResponse.accountBlocked ∧
    (dispatch_command (some u) cfg now (some t) text).1 =
      (dispatch_command (some { u with state := UserState.Active }) cfg now
        (some t) text).1 := by
  constructor
  · simp [handle_start_command, hp, hb]
  · rfl

/-- Claim C2, witness for the amended theorem at a concrete blocked user. -/
theorem blocked_check_only_in_start_handler_witness :
    handle_start_command sampleCfg 0 "u-2" (some sampleTg)
      (some blockedUser) = StartResponse.accountBlocked ∧
    (dispatch_command (some blockedUser) sampleCfg 0 (some sampleTg)
        "/find_match").1 =
      (dispatch_command (some { blockedUser with state := UserState.Active })
        sampleCfg 0 (some sampleTg) "/find_match").1 :=
  blocked_check_only_in_start_handler blockedUser sampleCfg 0 "u-2" sampleTg
    "/find_match" (by decide) (by decide)

/-- Claim C3, counterexample: when the first add of "e" fills the list to
`MAX_USER_MEDIA_ITEMS`, an immediately repeated add of the same "e" is not a
no-op but fails with the limit error, because `add_media_key_to_user` checks
the limit before checking for the duplicate. -/
theorem add_same_key_at_limit_errors :
    add_media_key_to_user ["a", "b", "c", "d"] "e" =
      Except.ok ["a", "b", "c", "d", "e"] ∧
    add_media_key_to_user ["a", "b", "c", "d", "e"] "e" =
      Except.error MediaError.limitReached :=
  ⟨rfl, rfl⟩

/-- Claim C3, amended: a successful add of `k` followed immediately by a
second add of the same `k` leaves the list unchanged (idempotent, no error,
no duplicate) whenever the list after the first add is still below
`MAX_USER_MEDIA_ITEMS`; if the first add filled the list to the maximum, the
second add fails with the limit error instead, since the limit check
precedes the duplicate check. -/
theorem add_same_key_idempotent_below_limit (keys keys1 : List String)
    (k : String) (h1 : add_media_key_to_user keys k = Except.ok keys1)
    (h2 : keys1.length < MAX_USER_MEDIA_ITEMS) :
    add_media_key_to_user keys1 k = Except.ok keys1 ∧ k ∈ keys1 := by
  unfold add_media_key_to_user at h1 ⊢
  by_cases hl : MAX_USER_MEDIA_ITEMS ≤ keys.length
  · simp [hl] at h1
  · rw [if_neg hl] at h1
    by_cases hm : k ∈ keys
    · simp [hm] at h1
      subst h1
      simp [Nat.not_le.mpr h2, hm]
    · simp [hm] at h1
      subst h1
      have hk : k ∈ keys ++ [k] := by simp
      simp [Nat.not_le.mpr h2, hk]
      simpa using h2

/-- Claim C3, witness for the amended theorem: a repeated add of "b" on a
two-element list is accepted as a no-op. -/
theorem add_same_key_idempotent_below_limit_witness :
    (add_media_key_to_user ["a", "b"] "b" = Except.ok ["a", "b"] ∧
      "b" ∈ ["a", "b"]) ∧
    add_media_key_to_user ["a"] "b" = Except.ok ["a", "b"] ∧
    (["a", "b"] : List String).length < MAX_USER_MEDIA_ITEMS :=
  ⟨add_same_key_idempotent_below_limit ["a"] ["a", "b"] "b" rfl (by decide),
    rfl, by decide⟩

/-- Claim C4: on a media list already holding `MAX_USER_MEDIA_ITEMS` keys a
further add fails with the limit error (so the stored list is untouched),
and every successful add preserves the length bound
`media_keys.length ≤ MAX_USER_MEDIA_ITEMS`. -/
theorem media_limit_enforced (keys : List String) (k : String) :
    (keys.length = MAX_USER_MEDIA_ITEMS →
      add_media_key_to_user keys k = Except.error MediaError.limitReached) ∧
    (∀ keys1, keys.length ≤ MAX_USER_MEDIA_ITEMS →
      add_media_key_to_user keys k = Except.ok keys1 →
      keys1.length ≤ MAX_USER_MEDIA_ITEMS) := by
  constructor
  · intro h
    unfold add_media_key_to_user
    simp [h]
  · intro keys1 hle hok
    unfold add_media_key_to_user at hok
    by_cases hl : MAX_USER_MEDIA_ITEMS ≤ keys.length
    · simp [hl] at hok
    · rw [if_neg hl] at hok
      by_cases hm : k ∈ keys
      · simp [hm] at hok
        subst hok
        exact hle
      · simp [hm] at hok
        subst hok
        have : keys.length + 1 ≤ MAX_USER_MEDIA_ITEMS := Nat.not_le.mp hl
        simpa using this

/-- Claim C4, witness: adding a sixth distinct key to a full list errors,
and a successful add on a shorter list stays within the bound. -/
theorem media_limit_enforced_witness :
    add_media_key_to_user ["a", "b", "c", "d", "e"] "f" =
      Except.error MediaError.limitReached ∧
    (["a", "b", "c", "d"] : List String).length ≤ MAX_USER_MEDIA_ITEMS :=
  ⟨(media_limit_enforced ["a", "b", "c", "d", "e"] "f").1 rfl,
    (media_limit_enforced ["a", "b", "c"] "d").2 ["a", "b", "c", "d"]
      (by decide) rfl⟩

/-- Claim C5: `remove_media_key_from_user` on a list not containing the key
returns the list unchanged (and the operation is not an error — the function
is total and the result is persisted); on a duplicate-free list containing
the key (media lists never acquire duplicates, per the add logic) it removes
exactly one occurrence: the result is the list with that occurrence erased,
one element shorter, a sublist of the original (order preserved), and free
of the key. -/
theorem remove_media_key_spec (keys : List String) (k : String) :
    (k ∉ keys → remove_media_key_from_user keys k = keys) ∧
    (keys.Nodup → k ∈ keys →
      remove_media_key_from_user keys k = keys.erase k ∧
      (remove_media_key_from_user keys k).length + 1 = keys.length ∧
      (remove_media_key_from_user keys k).Sublist keys ∧
      k ∉ remove_media_key_from_user keys k) := by
  constructor
  · intro h
    unfold remove_media_key_from_user
    rw [List.filter_eq_self]
    intro a ha
    simp only [decide_eq_true_eq]
    rintro rfl
    exact h ha
  · intro hnd hm
    have he : remove_media_key_from_user keys k = keys.erase k := by
      rw [hnd.erase_eq_filter k]
      unfold remove_media_key_from_user
      congr 1
      funext x
      simp [bne, beq_eq_decide]
    have hpos : 0 < keys.length :=
      List.length_pos.mpr (List.ne_nil_of_mem hm)
    refine ⟨he, ?_, ?_, ?_⟩
    · rw [he, List.length_erase_of_mem hm]
      omega
    · rw [he]
      exact List.erase_sublist k keys
    · rw [he]
      exact hnd.not_mem_erase
/-- Claim C5, witness: removing an absent key "x" from a three-element list
is an unchanged success, and removing the present key "b" erases exactly
that one occurrence. -/
theorem remove_media_key_spec_witness :
    remove_media_key_from_user ["a", "b", "c"] "x" = ["a", "b", "c"] ∧
    (remove_media_key_from_user ["a", "b", "c"] "b" =
        (["a", "b", "c"] : List String).erase "b" ∧
      (remove_media_key_from_user ["a", "b", "c"] "b").length + 1 =
        (["a", "b", "c"] : List String).length ∧
      (remove_media_key_from_user ["a", "b", "c"] "b").Sublist
        ["a", "b", "c"] ∧
      "b" ∉ remove_media_key_from_user ["a", "b", "c"] "b") :=
  ⟨(remove_media_key_spec ["a", "b", "c"] "x").1 (by decide),
    (remove_media_key_spec ["a", "b", "c"] "b").2 (by decide) (by decide)⟩

/-- Claim C6: for a user in Onboarding with no name set,
`handle_onboarding_message` accepts exactly the texts whose trimmed form is
non-empty, at most 50 bytes, and does not begin with "/": acceptance sets
the name to the trimmed text and the state to Active (stamping the
timestamps), while any invalid text writes nothing and yields the re-prompt
response. -/
theorem onboarding_name_validation (u : User) (t : TelegramUser) (now : Int)
    (text : String) (hs : u.state = UserState.Onboarding)
    (hn : u.name = none) :
    (trimStr text ≠ "" ∧ utf8Len (trimStr text) ≤ 50 ∧
        startsWithStr (trimStr text) "/" = false →
      handle_onboarding_message (some u) (some t) now text =
        (OnboardResponse.profileComplete (trimStr text),
          some { u with
                  name := some (trimStr text)
                  state := UserState.Active
                  updated_at := now
                  last_interaction_at := now })) ∧
    (trimStr text = "" ∨ 50 < utf8Len (trimStr text) ∨
        startsWithStr (trimStr text) "/" = true →
      handle_onboarding_message (some u) (some t) now text =
        (OnboardResponse.invalidName, none)) := by
  constructor
  · rintro ⟨h1, h2, h3⟩
    have hno : ¬(trimStr text = "" ∨ 50 < utf8Len (trimStr text) ∨
        startsWithStr (trimStr text) "/" = true) := by
      rintro (h | h | h)
      · exact h1 h
      · omega
      · rw [h3] at h
        exact Bool.false_ne_true h
    simp [handle_onboarding_message, hs, hn, hno]
  · intro hbad
    simp [handle_onboarding_message, hs, hn, hbad]

/-- Claim C6, witness: the user sending " Alex " has the trimmed name
"Alex" accepted and becomes Active, and a pure-whitespace text is
rejected with no change. -/
theorem onboarding_name_validation_witness :
    (handle_onboarding_message
        (some (mkUser UserState.Onboarding [Role.User] none []))
        (some sampleTg) 5 " Alex " =
      (OnboardResponse.profileComplete (trimStr " Alex "),
        some { mkUser UserState.Onboarding [Role.User] none [] with
                name := some (trimStr " Alex ")
                state := UserState.Active
                updated_at := 5
                last_interaction_at := 5 })) ∧
    handle_onboarding_message
        (some (mkUser UserState.Onboarding [Role.User] none []))
        (some sampleTg) 5 "   " =
      (OnboardResponse.invalidName, none) :=
  ⟨(onboarding_name_validation (mkUser UserState.Onboarding [Role.User]
        none []) sampleTg 5 " Alex " rfl rfl).1
      ⟨by decide, by decide, by decide⟩,
    (onboarding_name_validation (mkUser UserState.Onboarding [Role.User]
        none []) sampleTg 5 "   " rfl rfl).2 (Or.inl (by decide))⟩

/-- Claim C7: the user row built for a previously unknown sender has state
Onboarding, exactly the default User role, every optional profile attribute
unset, an empty media list, and all three timestamps equal to the creation
time. -/
theorem create_user_defaults (uid : String) (tg : TelegramUser) (now : Int) :
    (create_user_from_telegram_user uid tg now).state =
        UserState.Onboarding ∧
    (create_user_from_telegram_user uid tg now).roles = [Role.User] ∧
    (create_user_from_telegram_user uid tg now).name = none ∧
    (create_user_from_telegram_user uid tg now).age = none ∧
    (create_user_from_telegram_user uid tg now).gender = none ∧
    (create_user_from_telegram_user uid tg now).bio = none ∧
    (create_user_from_telegram_user uid tg now).location_text = none ∧
    (create_user_from_telegram_user uid tg now).latitude = none ∧
    (create_user_from_telegram_user uid tg now).longitude = none ∧
    (create_user_from_telegram_user uid tg now).media_keys = [] ∧
    (create_user_from_telegram_user uid tg now).created_at = now ∧
    (create_user_from_telegram_user uid tg now).updated_at = now ∧
    (create_user_from_telegram_user uid tg now).last_interaction_at = now :=
  ⟨rfl, rfl, rfl, rfl, rfl, rfl, rfl, rfl, rfl, rfl, rfl, rfl, rfl⟩

/-- Claim C8: for an existing user, `dispatch_command` raises its
session-stale flag exactly when the spec predicate holds on the pre-update
`last_interaction_at` (elapsed time strictly above the configured threshold
AND state not Onboarding), and the flag is advisory: the outbound response
is the same at every clock reading, so the staleness check never changes
the reply (and the dispatcher writes no state at all). -/
theorem dispatch_stale_flag_advisory (u : User) (cfg : EnvironmentConfig)
    (now now' : Int) (t : TelegramUser) (text : String) :
    (dispatch_command (some u) cfg now (some t) text).2 =
      session_stale_spec cfg now u.last_interaction_at u.state ∧
    (dispatch_command (some u) cfg now (some t) text).1 =
      (dispatch_command (some u) cfg now' (some t) text).1 :=
  ⟨rfl, rfl⟩

/-- Claim C9: on the text-message path of `main`, the interaction-recording
call runs exactly when a user id was resolved by the re-fetch (whatever
response the handlers produced — success, denial or unknown command), and
the already-computed response is identical whether that call succeeds or
fails: a recording failure is logged and never surfaces. -/
theorem record_interaction_best_effort (cfg : EnvironmentConfig) (now : Int)
    (newUid : String) (tgOpt : Option TelegramUser)
    (lookup refetch : Option User) (text : String) (b b' : Bool) :
    (main_handle_text cfg now newUid tgOpt lookup refetch text b).1 =
      (main_handle_text cfg now newUid tgOpt lookup refetch text b').1 ∧
    (main_handle_text cfg now newUid tgOpt lookup refetch text b).2 =
      (if tgOpt.isSome && refetch.isSome then some (!b) else none) :=
  ⟨rfl, rfl⟩

/-- Claim C10: the entry point routes by string prefix on the trimmed text:
whenever it starts with "/start" — also for longer first tokens such as
"/startover" — the message goes to the start handler (which may create an
account for an unknown sender), never to `dispatch_command`. -/
theorem start_routing (cfg : EnvironmentConfig) (now : Int) (newUid : String)
    (tgOpt : Option TelegramUser) (lookup refetch : Option User)
    (text : String) (rf : Bool)
    (h : startsWithStr (trimStr text) "/start" = true) :
    (main_handle_text cfg now newUid tgOpt lookup refetch text rf).1 =
      MainResponse.start (handle_start_command cfg now newUid tgOpt lookup) :=
  by
  simp [main_handle_text, h]

/-- Claim C10, witness: "/startover" trims to a "/start"-prefixed text, is
routed to the start handler, and for an unknown sender that handler takes
the account-creation path. -/
theorem start_routing_witness :
    startsWithStr (trimStr "/startover") "/start" = true ∧
    (main_handle_text sampleCfg 0 "u-2" (some sampleTg) none none
        "/startover" false).1 =
      MainResponse.start
        (handle_start_command sampleCfg 0 "u-2" (some sampleTg) none) ∧
    handle_start_command sampleCfg 0 "u-2" (some sampleTg) none =
      StartResponse.newUserAskName :=
  ⟨by decide,
    start_routing sampleCfg 0 "u-2" (some sampleTg) none none "/startover"
      false (by decide),
    by decide⟩
